import Mathlib

/-!
Verification of the payjoin receiver protocol core (chaincase-app/payjoin).

The development shallowly embeds the Rust sources:
  * `src/payjoin/src/v2.rs`      — the HPKE-style payload encryption,
  * `src/bip78/src/psbt.rs`      — PSBT validation and per-input UTXO resolution,
  * `src/bip78/src/input_type.rs` — input script-type classification and weights,
  * `src/payjoin/src/receive/v2.rs` — v2 session (`Enrolled`) polling and persistence,
  * `src/payjoin/src/receive/multiparty/mod.rs` — the multiparty aggregator,
  * `src/payjoin/src/receive/mod.rs` — `InputPair::new`.

Bytes are modelled as `List Nat`.  External cryptographic primitives
(secp256k1 ECDH, ChaCha20-Poly1305) are abstracted by a `CryptoPrims`
structure whose fields carry the algebraic laws the libraries document;
a concrete executable instance `toyCrypto` witnesses the theorems.
-/

/-- `PADDED_MESSAGE_BYTES` from src/payjoin/src/v2.rs. -/
def PADDED_MESSAGE_BYTES : Nat := 7168

/-- `HpkeError` from src/payjoin/src/v2.rs. -/
inductive HpkeError where
  | secp256k1
  | chaCha20Poly1305
  | invalidKeyLength
  | payloadTooLarge
  | payloadTooShort
deriving DecidableEq, Repr

/-- `pad` from src/payjoin/src/v2.rs: error when longer than 7168 bytes,
otherwise push zeros (the source's while loop) up to 7168 bytes. -/
def pad (msg : List Nat) : Except HpkeError (List Nat) :=
  if msg.length > PADDED_MESSAGE_BYTES then .error .payloadTooLarge
  else .ok (msg ++ List.replicate (PADDED_MESSAGE_BYTES - msg.length) 0)

/-- Abstraction of the external cryptographic primitives used by
src/payjoin/src/v2.rs: secp256k1 keys and ECDH (`SharedSecret::new`),
33-byte compressed public-key serialization (`PublicKey::serialize` /
`PublicKey::from_slice`), and the ChaCha20-Poly1305 AEAD.  The `Prop`
fields are the documented laws of those libraries. -/
structure CryptoPrims where
  SecKey : Type
  PubKey : Type
  SymKey : Type
  pubOf : SecKey → PubKey
  serializePub : PubKey → List Nat
  parse33 : List Nat → Option PubKey
  secBytes : SecKey → List Nat
  dh : PubKey → SecKey → SymKey
  aeadEnc : SymKey → List Nat → List Nat → List Nat → List Nat
  aeadDec : SymKey → List Nat → List Nat → List Nat → Option (List Nat)
  serializePub_length : ∀ p, (serializePub p).length = 33
  parse33_serializePub : ∀ p, parse33 (serializePub p) = some p
  dh_comm : ∀ a b, dh (pubOf a) b = dh (pubOf b) a
  aeadDec_aeadEnc : ∀ k n aad m, aeadDec k n aad (aeadEnc k n aad m) = some m

/-- `encrypt_message_a` from src/payjoin/src/v2.rs.  The random nonce drawn
from `OsRng` is made an explicit argument; the shared secret's
`secret_bytes()` are always 32 bytes, so the `InvalidKeyLength` arm of
`new_from_slice` is unreachable and the AEAD key is `dh s e_sec` directly. -/
def encrypt_message_a (C : CryptoPrims) (raw_msg : List Nat) (e_sec : C.SecKey)
    (s : C.PubKey) (nonce : List Nat) : Except HpkeError (List Nat) :=
  let e_pub := C.pubOf e_sec
  let es := C.dh s e_sec
  match pad raw_msg with
  | .error e => .error e
  | .ok msg =>
    let aad := C.serializePub e_pub
    let c_t := C.aeadEnc es nonce aad msg
    .ok (C.serializePub e_pub ++ nonce ++ c_t)

/-- `decrypt_message_a` from src/payjoin/src/v2.rs.  The slice accesses
`get(..33)`, `get(33..45)`, `get(45..)` fail exactly when the payload is
shorter than 33 resp. 45 bytes; the pubkey parse happens between the first
and the second of those checks, as in the source. -/
def decrypt_message_a (C : CryptoPrims) (message_a : List Nat) (s : C.SecKey) :
    Except HpkeError (List Nat × C.PubKey) :=
  if message_a.length < 33 then .error .payloadTooShort
  else
    match C.parse33 (message_a.take 33) with
    | none => .error .secp256k1
    | some e =>
      if message_a.length < 45 then .error .payloadTooShort
      else
        let nonce := (message_a.drop 33).take 12
        let es := C.dh e s
        let c_t := message_a.drop 45
        match C.aeadDec es nonce (C.serializePub e) c_t with
        | none => .error .chaCha20Poly1305
        | some buffer => .ok (buffer, e)

/-- `encrypt_message_b` from src/payjoin/src/v2.rs.  The ephemeral keypair
generated from `OsRng` is made an explicit argument `e_sec`; the nonce is
the all-zero 12-byte nonce of the source. -/
def encrypt_message_b (C : CryptoPrims) (raw_msg : List Nat) (re_pub : C.PubKey)
    (e_sec : C.SecKey) : Except HpkeError (List Nat) :=
  let e_pub := C.pubOf e_sec
  let ee := C.dh re_pub e_sec
  let nonce : List Nat := List.replicate 12 0
  match pad raw_msg with
  | .error e => .error e
  | .ok msg =>
    let c_t := C.aeadEnc ee nonce (C.serializePub e_pub) msg
    .ok (C.serializePub e_pub ++ nonce ++ c_t)

/-- `decrypt_message_b` from src/payjoin/src/v2.rs. -/
def decrypt_message_b (C : CryptoPrims) (message_b : List Nat) (e : C.SecKey) :
    Except HpkeError (List Nat) :=
  if message_b.length < 33 then .error .payloadTooShort
  else
    match C.parse33 (message_b.take 33) with
    | none => .error .secp256k1
    | some re =>
      if message_b.length < 45 then .error .payloadTooShort
      else
        let nonce := (message_b.drop 33).take 12
        let ee := C.dh re e
        match C.aeadDec ee nonce (C.serializePub re) (message_b.drop 45) with
        | none => .error .chaCha20Poly1305
        | some buffer => .ok buffer

/-- A toy authentication tag for the executable `CryptoPrims` instance. -/
def toyTag (k : Nat) (nonce aad m : List Nat) : Nat :=
  (k + nonce.sum + aad.sum + m.sum) % 256

/-- Toy AEAD encryption: append the tag. -/
def toyEnc (k : Nat) (nonce aad m : List Nat) : List Nat := m ++ [toyTag k nonce aad m]

/-- Toy AEAD decryption: check and strip the tag. -/
def toyDec (k : Nat) (nonce aad c : List Nat) : Option (List Nat) :=
  if c = c.dropLast ++ [toyTag k nonce aad c.dropLast] then some c.dropLast else none

/-- A concrete, executable instance of the cryptographic primitives used
to produce witnesses for the HPKE theorems.  Public keys serialize to a
33-byte string starting with the compressed-point prefix byte 2. -/
def toyCrypto : CryptoPrims where
  SecKey := Nat
  PubKey := Nat
  SymKey := Nat
  pubOf := fun s => 2 * s
  serializePub := fun p => 2 :: p :: List.replicate 31 0
  parse33 := fun l =>
    match l with
    | 2 :: p :: rest => if rest = List.replicate 31 0 then some p else none
    | _ => none
  secBytes := fun s => List.replicate 32 s
  dh := fun p k => p + 2 * k
  aeadEnc := toyEnc
  aeadDec := toyDec
  serializePub_length := by intro p; simp
  parse33_serializePub := by intro p; simp
  dh_comm := by intro a b; simp [Nat.add_comm]
  aeadDec_aeadEnc := by
    intro k n aad m
    simp [toyDec, toyEnc, List.dropLast_concat]

/-- View a natural number as a `toyCrypto` secret key. -/
abbrev toySec (n : Nat) : toyCrypto.SecKey := n

/-- View a natural number as a `toyCrypto` public key. -/
abbrev toyPub (n : Nat) : toyCrypto.PubKey := n

/-- The byte string produced by a successful `encrypt_message_a`. -/
theorem encrypt_message_a_ok (C : CryptoPrims) (m : List Nat) (e_sec : C.SecKey)
    (s : C.PubKey) (nonce : List Nat) (hm : m.length ≤ PADDED_MESSAGE_BYTES) :
    encrypt_message_a C m e_sec s nonce
      = .ok (C.serializePub (C.pubOf e_sec) ++ nonce ++
          C.aeadEnc (C.dh s e_sec) nonce (C.serializePub (C.pubOf e_sec))
            (m ++ List.replicate (PADDED_MESSAGE_BYTES - m.length) 0)) := by
  simp [encrypt_message_a, pad, Nat.not_lt.mpr hm]

/-- The byte string produced by a successful `encrypt_message_b`. -/
theorem encrypt_message_b_ok (C : CryptoPrims) (m : List Nat) (re_pub : C.PubKey)
    (e_sec : C.SecKey) (hm : m.length ≤ PADDED_MESSAGE_BYTES) :
    encrypt_message_b C m re_pub e_sec
      = .ok (C.serializePub (C.pubOf e_sec) ++ List.replicate 12 0 ++
          C.aeadEnc (C.dh re_pub e_sec) (List.replicate 12 0)
            (C.serializePub (C.pubOf e_sec))
            (m ++ List.replicate (PADDED_MESSAGE_BYTES - m.length) 0)) := by
  simp [encrypt_message_b, pad, Nat.not_lt.mpr hm]

/-- Decrypting a well-formed frame `ser e_pub ++ nonce ++ ct` recovers the
AEAD plaintext and the sender's ephemeral public key. -/
theorem decrypt_message_a_frame (C : CryptoPrims) (e_sec s_sec : C.SecKey)
    (nonce ct buf : List Nat) (hn : nonce.length = 12)
    (hdec : C.aeadDec (C.dh (C.pubOf s_sec) e_sec) nonce
        (C.serializePub (C.pubOf e_sec)) ct = some buf) :
    decrypt_message_a C (C.serializePub (C.pubOf e_sec) ++ nonce ++ ct) s_sec
      = .ok (buf, C.pubOf e_sec) := by
  have hser : (C.serializePub (C.pubOf e_sec)).length = 33 := C.serializePub_length _
  have hlen : (C.serializePub (C.pubOf e_sec) ++ nonce ++ ct).length = 45 + ct.length := by
    simp [hser, hn]; omega
  have htake : (C.serializePub (C.pubOf e_sec) ++ nonce ++ ct).take 33
      = C.serializePub (C.pubOf e_sec) := by
    rw [List.append_assoc]
    exact List.take_left' hser
  have hdrop33 : (C.serializePub (C.pubOf e_sec) ++ nonce ++ ct).drop 33 = nonce ++ ct := by
    rw [List.append_assoc]
    exact List.drop_left' hser
  have hdrop45 : (C.serializePub (C.pubOf e_sec) ++ nonce ++ ct).drop 45 = ct := by
    refine List.drop_left' ?_
    simp [hser, hn]
  have h33 : ¬ (C.serializePub (C.pubOf e_sec) ++ nonce ++ ct).length < 33 := by omega
  have h45 : ¬ (C.serializePub (C.pubOf e_sec) ++ nonce ++ ct).length < 45 := by omega
  simp only [decrypt_message_a, if_neg h33, htake, C.parse33_serializePub, if_neg h45,
    hdrop33, hdrop45, List.take_left' hn, C.dh_comm e_sec s_sec, hdec]

/-- Decrypting a well-formed B frame recovers the AEAD plaintext. -/
theorem decrypt_message_b_frame (C : CryptoPrims) (e_sec f_sec : C.SecKey)
    (nonce ct buf : List Nat) (hn : nonce.length = 12)
    (hdec : C.aeadDec (C.dh (C.pubOf e_sec) f_sec) nonce
        (C.serializePub (C.pubOf f_sec)) ct = some buf) :
    decrypt_message_b C (C.serializePub (C.pubOf f_sec) ++ nonce ++ ct) e_sec
      = .ok buf := by
  have hser : (C.serializePub (C.pubOf f_sec)).length = 33 := C.serializePub_length _
  have hlen : (C.serializePub (C.pubOf f_sec) ++ nonce ++ ct).length = 45 + ct.length := by
    simp [hser, hn]; omega
  have htake : (C.serializePub (C.pubOf f_sec) ++ nonce ++ ct).take 33
      = C.serializePub (C.pubOf f_sec) := by
    rw [List.append_assoc]
    exact List.take_left' hser
  have hdrop33 : (C.serializePub (C.pubOf f_sec) ++ nonce ++ ct).drop 33 = nonce ++ ct := by
    rw [List.append_assoc]
    exact List.drop_left' hser
  have hdrop45 : (C.serializePub (C.pubOf f_sec) ++ nonce ++ ct).drop 45 = ct := by
    refine List.drop_left' ?_
    simp [hser, hn]
  have hcomm : C.dh (C.pubOf f_sec) e_sec = C.dh (C.pubOf e_sec) f_sec := C.dh_comm f_sec e_sec
  have h33 : ¬ (C.serializePub (C.pubOf f_sec) ++ nonce ++ ct).length < 33 := by omega
  have h45 : ¬ (C.serializePub (C.pubOf f_sec) ++ nonce ++ ct).length < 45 := by omega
  simp only [decrypt_message_b, if_neg h33, htake, C.parse33_serializePub, if_neg h45,
    hdrop33, hdrop45, List.take_left' hn, hcomm, hdec]

/-- C1: HPKE round-trip: for every plaintext of at most 7168 bytes and every
12-byte nonce, `decrypt_message_a (encrypt_message_a m e_sec (pub s)) s`
succeeds and returns the zero-right-padded plaintext together with the
sender ephemeral public key derived from `e_sec`; analogously
`decrypt_message_b (encrypt_message_b m (pub e2) f) e2` returns the padded
plaintext. -/
theorem hpke_roundtrip (C : CryptoPrims) (m : List Nat)
    (e_sec s_sec f_sec e2_sec : C.SecKey) (nonce : List Nat)
    (hm : m.length ≤ PADDED_MESSAGE_BYTES) (hn : nonce.length = 12) :
    (∃ msg, encrypt_message_a C m e_sec (C.pubOf s_sec) nonce = .ok msg ∧
      decrypt_message_a C msg s_sec
        = .ok (m ++ List.replicate (PADDED_MESSAGE_BYTES - m.length) 0, C.pubOf e_sec)) ∧
    (∃ msg, encrypt_message_b C m (C.pubOf e2_sec) f_sec = .ok msg ∧
      decrypt_message_b C msg e2_sec
        = .ok (m ++ List.replicate (PADDED_MESSAGE_BYTES - m.length) 0)) := by
  constructor
  · refine ⟨_, encrypt_message_a_ok C m e_sec (C.pubOf s_sec) nonce hm, ?_⟩
    exact decrypt_message_a_frame C e_sec s_sec nonce _ _ hn
      (C.aeadDec_aeadEnc _ _ _ _)
  · refine ⟨_, encrypt_message_b_ok C m (C.pubOf e2_sec) f_sec hm, ?_⟩
    exact decrypt_message_b_frame C e2_sec f_sec (List.replicate 12 0) _ _ (by simp)
      (C.aeadDec_aeadEnc _ _ _ _)

/-- Witness for `hpke_roundtrip` at a concrete instance. -/
theorem hpke_roundtrip_witness :
    (∃ msg, encrypt_message_a toyCrypto [1, 2, 3] (toySec 5) (toyCrypto.pubOf (toySec 7))
        (List.replicate 12 0) = .ok msg ∧
      decrypt_message_a toyCrypto msg (toySec 7)
        = .ok ([1, 2, 3] ++ List.replicate (PADDED_MESSAGE_BYTES - 3) 0,
            toyCrypto.pubOf (toySec 5))) ∧
    (∃ msg, encrypt_message_b toyCrypto [1, 2, 3] (toyCrypto.pubOf (toySec 13)) (toySec 11)
        = .ok msg ∧
      decrypt_message_b toyCrypto msg (toySec 13)
        = .ok ([1, 2, 3] ++ List.replicate (PADDED_MESSAGE_BYTES - 3) 0)) :=
  hpke_roundtrip toyCrypto [1, 2, 3] (toySec 5) (toySec 7) (toySec 11) (toySec 13)
    (List.replicate 12 0) (by norm_num [PADDED_MESSAGE_BYTES]) (by simp)

/-- C6 (amended): encryption succeeds up to 7168 bytes and fails with
`PayloadTooLarge` beyond; decryption of any input shorter than 45 bytes
fails, with `PayloadTooShort` when the length is below 33 or the first 33
bytes parse as a public key, and with a secp256k1 key-parse error when the
first 33 bytes do not parse as a public key. -/
theorem hpke_size_errors (C : CryptoPrims) (m msg : List Nat)
    (e_sec s_sec : C.SecKey) (s_pub re_pub : C.PubKey) (nonce : List Nat) :
    (m.length ≤ PADDED_MESSAGE_BYTES →
      ∃ out, encrypt_message_a C m e_sec s_pub nonce = .ok out) ∧
    (m.length > PADDED_MESSAGE_BYTES →
      encrypt_message_a C m e_sec s_pub nonce = .error .payloadTooLarge) ∧
    (m.length ≤ PADDED_MESSAGE_BYTES →
      ∃ out, encrypt_message_b C m re_pub e_sec = .ok out) ∧
    (m.length > PADDED_MESSAGE_BYTES →
      encrypt_message_b C m re_pub e_sec = .error .payloadTooLarge) ∧
    (msg.length < 33 →
      decrypt_message_a C msg s_sec = .error .payloadTooShort ∧
      decrypt_message_b C msg s_sec = .error .payloadTooShort) ∧
    (msg.length < 45 → (∃ e, C.parse33 (msg.take 33) = some e) →
      decrypt_message_a C msg s_sec = .error .payloadTooShort ∧
      decrypt_message_b C msg s_sec = .error .payloadTooShort) ∧
    (33 ≤ msg.length → C.parse33 (msg.take 33) = none →
      decrypt_message_a C msg s_sec = .error .secp256k1 ∧
      decrypt_message_b C msg s_sec = .error .secp256k1) := by
  refine ⟨fun hm => ⟨_, encrypt_message_a_ok C m e_sec s_pub nonce hm⟩,
    fun hm => ?_, fun hm => ⟨_, encrypt_message_b_ok C m re_pub e_sec hm⟩,
    fun hm => ?_, fun h33 => ?_, fun h45 hp => ?_, fun h33 hp => ?_⟩
  · simp [encrypt_message_a, pad, hm]
  · simp [encrypt_message_b, pad, hm]
  · constructor <;> simp [decrypt_message_a, decrypt_message_b, h33]
  · by_cases h33 : msg.length < 33
    · constructor <;> simp [decrypt_message_a, decrypt_message_b, h33]
    · obtain ⟨e, he⟩ := hp
      constructor <;> simp [decrypt_message_a, decrypt_message_b, h33, he, h45]
  · constructor <;>
      simp [decrypt_message_a, decrypt_message_b, Nat.not_lt.mpr h33, hp]

/-- Witness for `hpke_size_errors`: the 7168-byte boundary and the
short-payload failures at concrete inputs. -/
theorem hpke_size_errors_witness :
    (∃ out, encrypt_message_a toyCrypto (List.replicate 7168 1) (toySec 5) (toyPub 9)
        (List.replicate 12 0) = .ok out) ∧
    encrypt_message_a toyCrypto (List.replicate 7169 1) (toySec 5) (toyPub 9)
      (List.replicate 12 0) = .error .payloadTooLarge ∧
    decrypt_message_a toyCrypto (2 :: List.replicate 39 0) (toySec 3)
      = .error .payloadTooShort := by
  refine ⟨?_, ?_, ?_⟩
  · exact (hpke_size_errors toyCrypto (List.replicate 7168 1) [] (toySec 5) (toySec 3)
      (toyPub 9) (toyPub 9) (List.replicate 12 0)).1
      (by rw [List.length_replicate]; norm_num [PADDED_MESSAGE_BYTES])
  · exact (hpke_size_errors toyCrypto (List.replicate 7169 1) [] (toySec 5) (toySec 3)
      (toyPub 9) (toyPub 9) (List.replicate 12 0)).2.1
      (by rw [List.length_replicate]; norm_num [PADDED_MESSAGE_BYTES])
  · exact ((hpke_size_errors toyCrypto [] (2 :: List.replicate 39 0) (toySec 5) (toySec 3)
      (toyPub 9) (toyPub 9) (List.replicate 12 0)).2.2.2.2.2.1 (by simp)
      ⟨toyPub 0, by rfl⟩).1

/-- Counterexample to C6 as stated: a 40-byte payload whose first 33 bytes
do not parse as a public key makes `decrypt_message_a` fail with the
secp256k1 key-parse error, not with `PayloadTooShort`, even though the
payload is shorter than 45 bytes. -/
theorem hpke_payload_too_short_cex :
    (List.replicate 40 0).length < 45 ∧
    decrypt_message_a toyCrypto (List.replicate 40 0) (toySec 3) = .error .secp256k1 ∧
    decrypt_message_a toyCrypto (List.replicate 40 0) (toySec 3)
      ≠ .error .payloadTooShort := by
  refine ⟨by simp, rfl, ?_⟩
  intro h
  rw [show decrypt_message_a toyCrypto (List.replicate 40 0) (toySec 3)
      = .error .secp256k1 from rfl] at h
  exact absurd (Except.error.inj h) (by decide)

/-- An outpoint (`bitcoin::OutPoint`): reference to an output of a previous
transaction.  `txid` abstracts `bitcoin::Txid`. -/
structure OutPoint where
  txid : Nat
  vout : Nat
deriving DecidableEq, Repr

/-- `bitcoin::TxOut`. -/
structure TxOut where
  value : Nat
  script_pubkey : List Nat
deriving DecidableEq, Repr

/-- `bitcoin::TxIn`: only the field this repository reads. -/
structure TxIn where
  previous_output : OutPoint
deriving DecidableEq, Repr

/-- `bitcoin::Transaction`: inputs and outputs. -/
structure Transaction where
  input : List TxIn
  output : List TxOut
deriving DecidableEq, Repr

/-- `bitcoin::util::psbt::Input`: the fields this repository reads. -/
structure PsbtInput where
  non_witness_utxo : Option Transaction
  witness_utxo : Option TxOut
  final_script_sig : Option (List Nat)
  redeem_script : Option (List Nat)
deriving DecidableEq, Repr

/-- `bitcoin::util::psbt::Output`: opaque here, no field is read. -/
def PsbtOutput := Unit

/-- `PartiallySignedTransaction` (`UncheckedPsbt` in src/bip78/src/psbt.rs). -/
structure UncheckedPsbt where
  unsigned_tx : Transaction
  inputs : List PsbtInput
  outputs : List PsbtOutput

/-- `InconsistentPsbt` from src/bip78/src/psbt.rs. -/
inductive InconsistentPsbt where
  | unequalInputCounts (tx_ins psbt_ins : Nat)
  | unequalOutputCounts (tx_outs psbt_outs : Nat)
deriving DecidableEq, Repr

/-- The validated `Psbt` newtype from src/bip78/src/psbt.rs. -/
structure Psbt78 where
  toUnchecked : UncheckedPsbt

/-- `TryFrom<UncheckedPsbt> for Psbt` from src/bip78/src/psbt.rs. -/
def Psbt78.tryFrom (unchecked : UncheckedPsbt) : Except InconsistentPsbt Psbt78 :=
  let tx_ins := unchecked.unsigned_tx.input.length
  let psbt_ins := unchecked.inputs.length
  let tx_outs := unchecked.unsigned_tx.output.length
  let psbt_outs := unchecked.outputs.length
  if psbt_ins ≠ tx_ins then .error (.unequalInputCounts tx_ins psbt_ins)
  else if psbt_outs ≠ tx_outs then .error (.unequalOutputCounts tx_outs psbt_outs)
  else .ok ⟨unchecked⟩

/-- `InputPair` from src/bip78/src/psbt.rs, with the borrowed references
flattened into owned values. -/
structure InputPair78 where
  txin : TxIn
  psbtin : PsbtInput
deriving DecidableEq, Repr

/-- `PrevTxOutError` from src/bip78/src/psbt.rs: its only two variants. -/
inductive PrevTxOutError where
  | missingUtxoInformation
  | indexOutOfBounds (output_count : Nat) (index : Nat)
deriving DecidableEq, Repr

/-- `PsbtInputError` from src/bip78/src/psbt.rs. -/
inductive PsbtInputError where
  | prevTxOut (e : PrevTxOutError)
  | unequalTxid
  | segWitTxOutMismatch
deriving DecidableEq, Repr

/-- `InputPair::previous_txout` from src/bip78/src/psbt.rs; match arms in
source order.  The `u32 → usize` conversion of `vout` cannot fail on a
64-bit target, so indexing is direct. -/
def previous_txout (pair : InputPair78) : Except PrevTxOutError TxOut :=
  match pair.psbtin.non_witness_utxo, pair.psbtin.witness_utxo with
  | none, none => .error .missingUtxoInformation
  | _, some txout => .ok txout
  | some tx, none =>
    match tx.output.get? pair.txin.previous_output.vout with
    | some txout => .ok txout
    | none => .error (.indexOutOfBounds tx.output.length pair.txin.previous_output.vout)

/-- `InputPair::validate_utxo` from src/bip78/src/psbt.rs.  `txidOf`
abstracts `Transaction::txid()` (double SHA-256 of the serialization, an
external primitive). -/
def validate_utxo (txidOf : Transaction → Nat) (pair : InputPair78)
    (treat_missing_as_error : Bool) : Except PsbtInputError Unit :=
  match pair.psbtin.non_witness_utxo, pair.psbtin.witness_utxo with
  | none, none =>
    if treat_missing_as_error then .error (.prevTxOut .missingUtxoInformation) else .ok ()
  | some tx, none =>
    if txidOf tx = pair.txin.previous_output.txid then
      match tx.output.get? pair.txin.previous_output.vout with
      | some _ => .ok ()
      | none =>
        .error (.prevTxOut (.indexOutOfBounds tx.output.length pair.txin.previous_output.vout))
    else .error .unequalTxid
  | none, some _ => .ok ()
  | some tx, some witness_txout =>
    if txidOf tx = pair.txin.previous_output.txid then
      match tx.output.get? pair.txin.previous_output.vout with
      | none =>
        .error (.prevTxOut (.indexOutOfBounds tx.output.length pair.txin.previous_output.vout))
      | some non_witness_txout =>
        if witness_txout = non_witness_txout then .ok () else .error .segWitTxOutMismatch
    else .error .unequalTxid

/-- C3: PSBT validation succeeds iff the input and output counts of the
PSBT metadata match those of the unsigned transaction, failing with
`UnequalInputCounts` resp. `UnequalOutputCounts` otherwise; every validated
`Psbt` therefore satisfies both count equalities. -/
theorem psbt_validate_iff (u : UncheckedPsbt) :
    (∀ p, Psbt78.tryFrom u = .ok p →
      p.toUnchecked = u ∧
      p.toUnchecked.unsigned_tx.input.length = p.toUnchecked.inputs.length ∧
      p.toUnchecked.unsigned_tx.output.length = p.toUnchecked.outputs.length) ∧
    ((∃ p, Psbt78.tryFrom u = .ok p) ↔
      (u.unsigned_tx.input.length = u.inputs.length ∧
       u.unsigned_tx.output.length = u.outputs.length)) ∧
    (u.inputs.length ≠ u.unsigned_tx.input.length →
      Psbt78.tryFrom u
        = .error (.unequalInputCounts u.unsigned_tx.input.length u.inputs.length)) ∧
    (u.inputs.length = u.unsigned_tx.input.length →
      u.outputs.length ≠ u.unsigned_tx.output.length →
      Psbt78.tryFrom u
        = .error (.unequalOutputCounts u.unsigned_tx.output.length u.outputs.length)) := by
  by_cases hin : u.inputs.length = u.unsigned_tx.input.length
  · by_cases hout : u.outputs.length = u.unsigned_tx.output.length
    · refine ⟨?_, ?_, fun h => absurd hin h, fun _ h => absurd hout h⟩
      · intro p hp
        simp only [Psbt78.tryFrom, if_neg (not_ne_iff.mpr hin),
          if_neg (not_ne_iff.mpr hout), Except.ok.injEq] at hp
        subst hp
        exact ⟨rfl, hin.symm, hout.symm⟩
      · simp [Psbt78.tryFrom, if_neg (not_ne_iff.mpr hin), if_neg (not_ne_iff.mpr hout),
          hin.symm, hout.symm]
    · refine ⟨?_, ?_, fun h => absurd hin h, fun _ _ => ?_⟩
      · intro p hp
        simp [Psbt78.tryFrom, if_neg (not_ne_iff.mpr hin), if_pos hout] at hp
      · constructor
        · rintro ⟨p, hp⟩
          simp [Psbt78.tryFrom, if_neg (not_ne_iff.mpr hin), if_pos hout] at hp
        · rintro ⟨-, h2⟩
          exact absurd h2.symm hout
      · simp [Psbt78.tryFrom, if_neg (not_ne_iff.mpr hin), if_pos hout]
  · refine ⟨?_, ?_, fun _ => ?_, fun h => absurd h hin⟩
    · intro p hp
      simp [Psbt78.tryFrom, if_pos hin] at hp
    · constructor
      · rintro ⟨p, hp⟩
        simp [Psbt78.tryFrom, if_pos hin] at hp
      · rintro ⟨h1, -⟩
        exact absurd h1.symm hin
    · simp [Psbt78.tryFrom, if_pos hin]

/-- A consistent 1-input 1-output PSBT used by the C3 witness. -/
def psbtConsistent : UncheckedPsbt :=
  { unsigned_tx :=
      { input := [{ previous_output := { txid := 1, vout := 0 } }],
        output := [{ value := 5, script_pubkey := [0] }] },
    inputs := [{ non_witness_utxo := none, witness_utxo := none,
                 final_script_sig := none, redeem_script := none }],
    outputs := [()] }

/-- An inconsistent PSBT (one tx input, no PSBT input) used by the C3
witness. -/
def psbtInconsistent : UncheckedPsbt :=
  { unsigned_tx :=
      { input := [{ previous_output := { txid := 1, vout := 0 } }],
        output := [] },
    inputs := [],
    outputs := [] }

/-- Witness for `psbt_validate_iff` at concrete PSBTs. -/
theorem psbt_validate_witness :
    (∃ p, Psbt78.tryFrom psbtConsistent = .ok p) ∧
    Psbt78.tryFrom psbtInconsistent = .error (.unequalInputCounts 1 0) := by
  constructor
  · exact (psbt_validate_iff psbtConsistent).2.1.mpr ⟨rfl, rfl⟩
  · exact (psbt_validate_iff psbtInconsistent).2.2.1 (by decide)

/-- C2 (amended): `previous_txout` prefers `witness_utxo` without any
cross-check, returns `MissingUtxoInformation` when both UTXO fields are
absent, and indexes `non_witness_utxo` (without a txid check) returning
`IndexOutOfBounds` on overflow; the cross-checks of the two fields —
`UnequalTxid` and `SegWitTxOutMismatch` — are performed by
`validate_utxo`, not by `previous_txout`. -/
theorem previous_txout_spec (txidOf : Transaction → Nat) (pair : InputPair78) :
    (pair.psbtin.non_witness_utxo = none → pair.psbtin.witness_utxo = none →
      previous_txout pair = .error .missingUtxoInformation) ∧
    (∀ w, pair.psbtin.witness_utxo = some w → previous_txout pair = .ok w) ∧
    (∀ tx, pair.psbtin.non_witness_utxo = some tx → pair.psbtin.witness_utxo = none →
      previous_txout pair
        = match tx.output.get? pair.txin.previous_output.vout with
          | some t => .ok t
          | none => .error (.indexOutOfBounds tx.output.length pair.txin.previous_output.vout)) ∧
    (∀ tx w, pair.psbtin.non_witness_utxo = some tx → pair.psbtin.witness_utxo = some w →
      txidOf tx ≠ pair.txin.previous_output.txid →
      validate_utxo txidOf pair true = .error .unequalTxid) ∧
    (∀ tx w nw, pair.psbtin.non_witness_utxo = some tx → pair.psbtin.witness_utxo = some w →
      txidOf tx = pair.txin.previous_output.txid →
      tx.output.get? pair.txin.previous_output.vout = some nw → w ≠ nw →
      validate_utxo txidOf pair true = .error .segWitTxOutMismatch) ∧
    (pair.psbtin.non_witness_utxo = none → pair.psbtin.witness_utxo = none →
      validate_utxo txidOf pair true = .error (.prevTxOut .missingUtxoInformation)) := by
  refine ⟨fun h1 h2 => ?_, fun w hw => ?_, fun tx htx hw => ?_,
    fun tx w htx hw hne => ?_, fun tx w nw htx hw heq hget hne => ?_, fun h1 h2 => ?_⟩
  · simp [previous_txout, h1, h2]
  · rcases hnw : pair.psbtin.non_witness_utxo with _ | tx <;>
      simp [previous_txout, hnw, hw]
  · simp only [previous_txout, htx, hw]
  · simp [validate_utxo, htx, hw, hne]
  · rw [List.get?_eq_getElem?] at hget
    simp [validate_utxo, htx, hw, heq, hget, hne]
  · simp [validate_utxo, h1, h2]

/-- The non-witness transaction of the C2 counterexample: a single output
that differs from the witness UTXO below. -/
def cexTx : Transaction :=
  { input := [], output := [{ value := 1, script_pubkey := [0] }] }

/-- C2 counterexample input pair: both UTXO fields present and
disagreeing on the spent `TxOut`. -/
def cexPair : InputPair78 :=
  { txin := { previous_output := { txid := 7, vout := 0 } },
    psbtin := { non_witness_utxo := some cexTx,
                witness_utxo := some { value := 2, script_pubkey := [1] },
                final_script_sig := none, redeem_script := none } }

/-- Counterexample to C2 as stated: with both `witness_utxo` and
`non_witness_utxo` present and disagreeing on the spent `TxOut`,
`previous_txout` succeeds with the witness `TxOut` instead of returning
`SegWitTxOutMismatch` (its error type cannot even express that error);
the disagreement is only caught by `validate_utxo`. -/
theorem previous_txout_no_crosscheck_cex :
    cexPair.psbtin.non_witness_utxo = some cexTx ∧
    cexPair.psbtin.witness_utxo = some { value := 2, script_pubkey := [1] } ∧
    cexTx.output.get? 0 = some { value := 1, script_pubkey := [0] } ∧
    ({ value := 2, script_pubkey := [1] } : TxOut) ≠ { value := 1, script_pubkey := [0] } ∧
    previous_txout cexPair = .ok { value := 2, script_pubkey := [1] } ∧
    validate_utxo (fun _ => 7) cexPair true = .error .segWitTxOutMismatch :=
  ⟨rfl, rfl, rfl, by decide, rfl, rfl⟩

/-- Witness for `previous_txout_spec` at concrete inputs. -/
theorem previous_txout_spec_witness :
    previous_txout cexPair = .ok { value := 2, script_pubkey := [1] } ∧
    validate_utxo (fun _ => 7) cexPair true = .error .segWitTxOutMismatch ∧
    validate_utxo (fun _ => 9) cexPair true = .error .unequalTxid := by
  refine ⟨?_, ?_, ?_⟩
  · exact (previous_txout_spec (fun _ => 7) cexPair).2.1 _ rfl
  · exact (previous_txout_spec (fun _ => 7) cexPair).2.2.2.2.1 cexTx
      { value := 2, script_pubkey := [1] } { value := 1, script_pubkey := [0] }
      rfl rfl rfl rfl (by decide)
  · exact (previous_txout_spec (fun _ => 9) cexPair).2.2.2.1 cexTx
      { value := 2, script_pubkey := [1] } rfl rfl (by decide)

/-- A parsed script instruction
(`bitcoin::blockdata::script::Instruction`). -/
inductive Instr where
  | pushBytes (bs : List Nat)
  | op (b : Nat)
deriving DecidableEq, Repr

/-- One step of `Script::instructions()` (rust-bitcoin 0.29, the external
script primitive assumed by the spec): `none` is end of script,
`some (.error ())` is `EarlyEndOfScript`, `some (.ok _)` is the next
instruction with the remaining bytes.  Opcodes 0..=75 push that many
following bytes; 76, 77, 78 are OP_PUSHDATA1/2/4 with a little-endian
length; every other byte is a plain opcode. -/
def nextInsn : List Nat → Option (Except Unit (Instr × List Nat))
  | [] => none
  | b :: rest =>
    if b ≤ 75 then
      if rest.length < b then some (.error ())
      else some (.ok (.pushBytes (rest.take b), rest.drop b))
    else if b = 76 then
      match rest with
      | [] => some (.error ())
      | n :: r =>
        if r.length < n then some (.error ())
        else some (.ok (.pushBytes (r.take n), r.drop n))
    else if b = 77 then
      match rest with
      | n0 :: n1 :: r =>
        let n := n0 + 256 * n1
        if r.length < n then some (.error ())
        else some (.ok (.pushBytes (r.take n), r.drop n))
      | _ => some (.error ())
    else if b = 78 then
      match rest with
      | n0 :: n1 :: n2 :: n3 :: r =>
        let n := n0 + 256 * n1 + 65536 * n2 + 16777216 * n3
        if r.length < n then some (.error ())
        else some (.ok (.pushBytes (r.take n), r.drop n))
      | _ => some (.error ())
    else some (.ok (.op b, rest))

/-- The instruction stream of `Script::instructions()`, yielding
instructions until the end of the script or a single trailing
`EarlyEndOfScript` error.  The fuel argument makes the recursion
structural; every step consumes at least one byte, so `script.length`
fuel always suffices. -/
def insnsFuel : Nat → List Nat → List (Except Unit Instr)
  | 0, _ => []
  | fuel + 1, s =>
    match nextInsn s with
    | none => []
    | some (.error _) => [.error ()]
    | some (.ok (i, rest)) => .ok i :: insnsFuel fuel rest

/-- `Script::instructions()` as a list. -/
def instructions (s : List Nat) : List (Except Unit Instr) := insnsFuel s.length s

/-- `unpack_p2sh` from src/bip78/src/input_type.rs:
`script_sig.instructions().last()?.ok()?`, keeping only a byte push. -/
def unpack_p2sh (script_sig : List Nat) : Option (List Nat) :=
  match (instructions script_sig).getLast? with
  | none => none
  | some (.error _) => none
  | some (.ok (.pushBytes bs)) => some bs
  | some (.ok (.op _)) => none

/-- `Script::is_p2pk` (rust-bitcoin 0.29): `<push 65> <65B> OP_CHECKSIG`
or `<push 33> <33B> OP_CHECKSIG`. -/
def is_p2pk (s : List Nat) : Bool :=
  (s.length == 67 && s.get? 0 == some 65 && s.get? 66 == some 172) ||
  (s.length == 35 && s.get? 0 == some 33 && s.get? 34 == some 172)

/-- `Script::is_p2pkh` (rust-bitcoin 0.29):
`OP_DUP OP_HASH160 <push 20> <20B> OP_EQUALVERIFY OP_CHECKSIG`. -/
def is_p2pkh (s : List Nat) : Bool :=
  s.length == 25 && s.get? 0 == some 118 && s.get? 1 == some 169 &&
  s.get? 2 == some 20 && s.get? 23 == some 136 && s.get? 24 == some 172

/-- `Script::is_p2sh` (rust-bitcoin 0.29):
`OP_HASH160 <push 20> <20B> OP_EQUAL`. -/
def is_p2sh (s : List Nat) : Bool :=
  s.length == 23 && s.get? 0 == some 169 && s.get? 1 == some 20 && s.get? 22 == some 135

/-- `Script::is_witness_program` (rust-bitcoin 0.29): length 4..=42, a
version byte of 0 or OP_PUSHNUM_1..=OP_PUSHNUM_16 (0x51..=0x60), a second
byte pushing 2..=40 bytes, and that push spanning the rest of the script. -/
def is_witness_program (s : List Nat) : Bool :=
  decide (4 ≤ s.length) && decide (s.length ≤ 42) &&
  (match s.get? 0 with
   | some v => v == 0 || (decide (81 ≤ v) && decide (v ≤ 96))
   | none => false) &&
  (match s.get? 1 with
   | some p => decide (2 ≤ p) && decide (p ≤ 40) && s.length == p + 2
   | none => false)

/-- `SegWitV0Type` from src/bip78/src/input_type.rs. -/
inductive SegWitV0Type where
  | pubkey
  | script
deriving DecidableEq, Repr

/-- `InputType` from src/bip78/src/input_type.rs. -/
inductive InputType where
  | p2pk
  | p2pkh
  | p2sh
  | segWitV0 (ty : SegWitV0Type) (nested : Bool)
  | taproot
deriving DecidableEq, Repr

/-- `InputTypeError` from src/bip78/src/input_type.rs. -/
inductive InputTypeError where
  | unknownInputType
  | notFinalized
deriving DecidableEq, Repr

/-- `TryFrom<Instructions> for SegWitV0Type` from
src/bip78/src/input_type.rs, over the remaining instruction stream: one
push of exactly 20 (pubkey hash) or 32 (script hash) bytes and nothing
after it. -/
def segWitV0TypeTryFrom (insns : List (Except Unit Instr)) :
    Except InputTypeError SegWitV0Type :=
  match insns with
  | [] => .error .unknownInputType
  | .error _ :: _ => .error .unknownInputType
  | .ok push :: rest =>
    match rest with
    | _ :: _ => .error .unknownInputType
    | [] =>
      match push with
      | .pushBytes bs =>
        if bs.length = 20 then .ok .pubkey
        else if bs.length = 32 then .ok .script
        else .error .unknownInputType
      | .op _ => .error .unknownInputType

/-- `InputType::segwit_from_script` from src/bip78/src/input_type.rs. -/
def segwit_from_script (script : List Nat) (nested : Bool) :
    Except InputTypeError InputType :=
  match instructions script with
  | [] => .error .unknownInputType
  | .error _ :: _ => .error .unknownInputType
  | .ok witness_version :: rest =>
    match witness_version with
    | .pushBytes bs =>
      if bs.length = 0 then
        match segWitV0TypeTryFrom rest with
        | .ok ty => .ok (.segWitV0 ty nested)
        | .error e => .error e
      else .error .unknownInputType
    | .op v =>
      if v = 81 then
        match rest with
        | [] => .error .unknownInputType
        | .error _ :: _ => .error .unknownInputType
        | .ok insn :: _ =>
          match insn with
          | .pushBytes bs =>
            if bs.length = 32 then .ok .taproot else .error .unknownInputType
          | .op _ => .error .unknownInputType
      else .error .unknownInputType

/-- `InputType::from_spent_input` from src/bip78/src/input_type.rs. -/
def from_spent_input (txout : TxOut) (txin : PsbtInput) :
    Except InputTypeError InputType :=
  if is_p2pk txout.script_pubkey then .ok .p2pk
  else if is_p2pkh txout.script_pubkey then .ok .p2pkh
  else if is_p2sh txout.script_pubkey then
    match txin.final_script_sig.bind unpack_p2sh with
    | some script =>
      if is_witness_program script then segwit_from_script script true
      else .ok .p2sh
    | none => .error .notFinalized
  else if is_witness_program txout.script_pubkey then
    segwit_from_script txout.script_pubkey false
  else .error .unknownInputType

/-- A P2SH scriptPubKey has length 23, so it is neither P2PK (67 or 35
bytes) nor P2PKH (25 bytes). -/
theorem is_p2sh_not_p2pk_p2pkh (s : List Nat) (h : is_p2sh s = true) :
    is_p2pk s = false ∧ is_p2pkh s = false := by
  simp only [is_p2sh, Bool.and_eq_true, beq_iff_eq] at h
  obtain ⟨⟨⟨hlen, -⟩, -⟩, -⟩ := h
  constructor <;> simp [is_p2pk, is_p2pkh, hlen]

/-- Every `Ok` result of `segwit_from_script` on a redeem script with the
nested flag set is either a `SegWitV0` type with `nested = true` or
`Taproot`. -/
theorem segwit_from_script_nested_cases (redeem : List Nat) (t : InputType)
    (h : segwit_from_script redeem true = .ok t) :
    (∃ ty, t = .segWitV0 ty true) ∨ t = .taproot := by
  unfold segwit_from_script at h
  split at h
  · exact absurd h (by simp)
  · exact absurd h (by simp)
  · rename_i witness_version rest
    split at h
    · rename_i bs
      split at h
      · split at h
        · rename_i ty hty
          left
          exact ⟨ty, (Except.ok.inj h).symm⟩
        · exact absurd h (by simp)
      · exact absurd h (by simp)
    · rename_i v
      split at h
      · split at h
        · exact absurd h (by simp)
        · exact absurd h (by simp)
        · rename_i insn tl
          split at h
          · split at h
            · right
              exact (Except.ok.inj h).symm
            · exact absurd h (by simp)
          · exact absurd h (by simp)
      · exact absurd h (by simp)

/-- C4 (amended): for a spent P2SH output, `from_spent_input` returns
`NotFinalized` when `final_script_sig` is absent, and also when it is
present but its last instruction is not a byte push; otherwise, with the
last pushed bytes as the redeem script, it returns `P2Sh` when the redeem
script is not a witness program, and classifies the redeem script by the
witness-program rule with `nested = true` when it is — which yields
`SegWitV0{.., nested = true}` for version-0 programs of 20 or 32 bytes,
`Taproot` for version-1 32-byte programs, and `UnknownInputType`
otherwise. -/
theorem p2sh_classification_spec (txout : TxOut) (txin : PsbtInput)
    (hsh : is_p2sh txout.script_pubkey = true) :
    (txin.final_script_sig = none → from_spent_input txout txin = .error .notFinalized) ∧
    (∀ ss, txin.final_script_sig = some ss → unpack_p2sh ss = none →
      from_spent_input txout txin = .error .notFinalized) ∧
    (∀ ss redeem, txin.final_script_sig = some ss → unpack_p2sh ss = some redeem →
      is_witness_program redeem = false →
      from_spent_input txout txin = .ok .p2sh) ∧
    (∀ ss redeem, txin.final_script_sig = some ss → unpack_p2sh ss = some redeem →
      is_witness_program redeem = true →
      from_spent_input txout txin = segwit_from_script redeem true) ∧
    (∀ redeem t, segwit_from_script redeem true = .ok t →
      (∃ ty, t = .segWitV0 ty true) ∨ t = .taproot) := by
  obtain ⟨hpk, hpkh⟩ := is_p2sh_not_p2pk_p2pkh txout.script_pubkey hsh
  refine ⟨fun hss => ?_, fun ss hss hup => ?_, fun ss redeem hss hup hwp => ?_,
    fun ss redeem hss hup hwp => ?_, segwit_from_script_nested_cases⟩
  · simp [from_spent_input, hpk, hpkh, hsh, hss]
  · simp [from_spent_input, hpk, hpkh, hsh, hss, hup]
  · simp [from_spent_input, hpk, hpkh, hsh, hss, hup, hwp]
  · simp [from_spent_input, hpk, hpkh, hsh, hss, hup, hwp]

/-- Decidable equality for `Except`, used to evaluate results on concrete
inputs. -/
instance exceptDecEq {ε α : Type} [DecidableEq ε] [DecidableEq α] :
    DecidableEq (Except ε α) := fun a b =>
  match a, b with
  | .ok x, .ok y => decidable_of_iff (x = y) (by simp)
  | .error x, .error y => decidable_of_iff (x = y) (by simp)
  | .ok _, .error _ => .isFalse (fun hc => by cases hc)
  | .error _, .ok _ => .isFalse (fun hc => by cases hc)

/-- The P2SH scriptPubKey of the C4 counterexample. -/
def cexP2shSpk : List Nat := 169 :: 20 :: (List.replicate 20 1 ++ [135])

/-- The redeem script of the C4 counterexample: the version-1 witness
program `OP_1 <32 bytes>`. -/
def cexTaprootRedeem : List Nat := 81 :: 32 :: List.replicate 32 2

/-- The finalized scriptSig of the C4 counterexample: a single push of the
redeem script. -/
def cexScriptSig : List Nat := 34 :: cexTaprootRedeem

/-- The PSBT input of the C4 counterexample. -/
def cexP2shInput : PsbtInput :=
  { non_witness_utxo := none, witness_utxo := none,
    final_script_sig := some cexScriptSig, redeem_script := none }

/-- Counterexample to C4 as stated: a P2SH spent output whose redeem
script is a (version-1) witness program classifies as `Taproot`, not as
`SegWitV0` with `nested = true`. -/
theorem p2sh_taproot_redeem_cex :
    is_p2sh cexP2shSpk = true ∧
    unpack_p2sh cexScriptSig = some cexTaprootRedeem ∧
    is_witness_program cexTaprootRedeem = true ∧
    from_spent_input { value := 42, script_pubkey := cexP2shSpk } cexP2shInput
      = .ok .taproot ∧
    from_spent_input { value := 42, script_pubkey := cexP2shSpk } cexP2shInput
      ≠ .ok (.segWitV0 .pubkey true) ∧
    from_spent_input { value := 42, script_pubkey := cexP2shSpk } cexP2shInput
      ≠ .ok (.segWitV0 .script true) := by
  refine ⟨by decide, by decide, by decide, by decide, ?_, ?_⟩ <;>
    · intro h
      rw [show from_spent_input { value := 42, script_pubkey := cexP2shSpk } cexP2shInput
          = .ok .taproot by decide] at h
      exact absurd (Except.ok.inj h) (by decide)

/-- Witness for `p2sh_classification_spec` at concrete inputs: an absent
scriptSig, a plain P2SH redeem script, and the taproot redeem script. -/
theorem p2sh_classification_witness :
    from_spent_input { value := 42, script_pubkey := cexP2shSpk }
      { non_witness_utxo := none, witness_utxo := none,
        final_script_sig := none, redeem_script := none } = .error .notFinalized ∧
    from_spent_input { value := 42, script_pubkey := cexP2shSpk }
      { non_witness_utxo := none, witness_utxo := none,
        final_script_sig := some [3, 5, 5, 5], redeem_script := none } = .ok .p2sh ∧
    from_spent_input { value := 42, script_pubkey := cexP2shSpk } cexP2shInput
      = segwit_from_script cexTaprootRedeem true := by
  refine ⟨?_, ?_, ?_⟩
  · exact (p2sh_classification_spec _ _ (by decide)).1 rfl
  · exact (p2sh_classification_spec _ _ (by decide)).2.2.1 [3, 5, 5, 5] [5, 5, 5]
      rfl (by decide) (by decide)
  · exact (p2sh_classification_spec _ _ (by decide)).2.2.2.1 cexScriptSig cexTaprootRedeem
      rfl (by decide) (by decide)

/-- Modelled from the spec: `crate::weight` (bip78's weight.rs) is not
under src/; the spec's table gives the results directly in
"non-witness-data weight units", so the constructor is read as the
identity on that unit. -/
def Weight.from_non_witness_data_size (size : Nat) : Nat := size

/-- The result of a Rust function returning `Weight` that may hit
`unimplemented!()`: either a weight or a panic.  The Rust signature has no
error channel at all. -/
inductive WeightResult where
  | ok (w : Nat)
  | panicked
deriving DecidableEq, Repr

/-- `InputType::expected_input_weight` from src/bip78/src/input_type.rs;
the `unimplemented!()` arms panic. -/
def expected_input_weight : InputType → WeightResult
  | .p2pk => .panicked
  | .p2pkh => .ok (Weight.from_non_witness_data_size 148)
  | .p2sh => .panicked
  | .segWitV0 .pubkey false => .ok (Weight.from_non_witness_data_size 68)
  | .segWitV0 .pubkey true => .ok (Weight.from_non_witness_data_size 91)
  | .segWitV0 .script _ => .panicked
  | .taproot => .ok (Weight.from_non_witness_data_size 58)

/-- C5 (amended): `expected_input_weight` returns 148 weight units for
P2PKH, 68 for native SegWit v0 pubkey, 91 for nested SegWit v0 pubkey and
58 for Taproot; for P2PK, P2SH and SegWit v0 script inputs it panics via
`unimplemented!()` — its signature has no error channel, so no
"unsupported" error value is ever returned. -/
theorem expected_input_weight_spec :
    expected_input_weight .p2pkh = .ok 148 ∧
    expected_input_weight (.segWitV0 .pubkey false) = .ok 68 ∧
    expected_input_weight (.segWitV0 .pubkey true) = .ok 91 ∧
    expected_input_weight .taproot = .ok 58 ∧
    expected_input_weight .p2pk = .panicked ∧
    expected_input_weight .p2sh = .panicked ∧
    expected_input_weight (.segWitV0 .script false) = .panicked ∧
    expected_input_weight (.segWitV0 .script true) = .panicked := by
  decide

/-- Counterexample to C5 as stated: on P2PK, P2SH and SegWit v0 script
inputs the function panics (the source's `unimplemented!()`); it does not
return an error value. -/
theorem expected_input_weight_panics_cex :
    expected_input_weight .p2pk = .panicked ∧
    expected_input_weight .p2sh = .panicked ∧
    expected_input_weight (.segWitV0 .script false) = .panicked ∧
    expected_input_weight (.segWitV0 .script true) = .panicked := by
  decide

/-- `Enrolled` from src/payjoin/src/receive/v2.rs: the persistable v2
session.  URLs are modelled as strings; `s` is the session secret
keypair. -/
structure Enrolled (C : CryptoPrims) where
  relay_url : String
  ohttp_config : List Nat
  ohttp_proxy : String
  s : C.SecKey

/-- A serialized JSON field value: a string or a byte array. -/
inductive JsonVal where
  | str (s : String)
  | bytes (b : List Nat)
deriving DecidableEq, Repr

/-- `impl Serialize for Enrolled` from src/payjoin/src/receive/v2.rs: a
4-field struct serializing `relay_url`, `ohttp_config`, `ohttp_proxy` and
`s` (the secret-key bytes), in that order and nothing else. -/
def serializeEnrolled (C : CryptoPrims) (en : Enrolled C) : List (String × JsonVal) :=
  [("relay_url", .str en.relay_url),
   ("ohttp_config", .bytes en.ohttp_config),
   ("ohttp_proxy", .str en.ohttp_proxy),
   ("s", .bytes (C.secBytes en.s))]

/-- `V2Context` from src/payjoin/src/receive/v2.rs: the per-proposal
session context, carrying the sender's ephemeral pubkey `e` once it is
known. -/
structure V2Context (C : CryptoPrims) where
  relay_url : String
  ohttp_config : List Nat
  ohttp_proxy : String
  s : C.SecKey
  e : Option C.PubKey

/-- Whether a byte is a UTF-8 continuation byte (0x80..=0xBF). -/
def isCont (b : Nat) : Bool := decide (128 ≤ b) && decide (b ≤ 191)

/-- UTF-8 validity of a byte string, as decided by Rust's
`String::from_utf8` (an external primitive): the standard table,
rejecting overlong encodings and surrogates. -/
def validUtf8 : List Nat → Bool
  | [] => true
  | b :: rest =>
    if b ≤ 127 then validUtf8 rest
    else if 194 ≤ b ∧ b ≤ 223 then
      match rest with
      | c1 :: r => isCont c1 && validUtf8 r
      | [] => false
    else if b = 224 then
      match rest with
      | c1 :: c2 :: r =>
        decide (160 ≤ c1) && decide (c1 ≤ 191) && isCont c2 && validUtf8 r
      | _ => false
    else if (225 ≤ b ∧ b ≤ 236) ∨ b = 238 ∨ b = 239 then
      match rest with
      | c1 :: c2 :: r => isCont c1 && isCont c2 && validUtf8 r
      | _ => false
    else if b = 237 then
      match rest with
      | c1 :: c2 :: r =>
        decide (128 ≤ c1) && decide (c1 ≤ 159) && isCont c2 && validUtf8 r
      | _ => false
    else if b = 240 then
      match rest with
      | c1 :: c2 :: c3 :: r =>
        decide (144 ≤ c1) && decide (c1 ≤ 191) && isCont c2 && isCont c3 && validUtf8 r
      | _ => false
    else if 241 ≤ b ∧ b ≤ 243 then
      match rest with
      | c1 :: c2 :: c3 :: r => isCont c1 && isCont c2 && isCont c3 && validUtf8 r
      | _ => false
    else if b = 244 then
      match rest with
      | c1 :: c2 :: c3 :: r =>
        decide (128 ≤ c1) && decide (c1 ≤ 143) && isCont c2 && isCont c3 && validUtf8 r
      | _ => false
    else false

/-- Errors surfaced by `Enrolled::process_res`
(src/payjoin/src/receive/v2.rs): a payload-parse (request) error from
`from_v2_payload` or an HPKE error from `decrypt_message_a`.  The OHTTP
decapsulation happens before the modelled entry point. -/
inductive ProcessResError (ReqError : Type) where
  | request (e : ReqError)
  | hpke (e : HpkeError)

/-- `Enrolled::process_res` from src/payjoin/src/receive/v2.rs, applied to
the decapsulated response body.  `fromV2Payload` abstracts
`UncheckedProposal::from_v2_payload` (base64/PSBT/query parsing through
external primitives); the source passes it the UTF-8 body unchanged
(`proposal.into_bytes()`), or the decrypted plaintext. -/
def process_res (C : CryptoPrims) {ReqError P : Type} (en : Enrolled C)
    (fromV2Payload : List Nat → V2Context C → Except ReqError P)
    (response : List Nat) : Except (ProcessResError ReqError) (Option P) :=
  if response = [] then .ok none
  else if validUtf8 response then
    match fromV2Payload response
        { relay_url := en.relay_url, ohttp_config := en.ohttp_config,
          ohttp_proxy := en.ohttp_proxy, s := en.s, e := none } with
    | .error er => .error (.request er)
    | .ok prop => .ok (some prop)
  else
    match decrypt_message_a C response en.s with
    | .error er => .error (.hpke er)
    | .ok (proposal, e) =>
      match fromV2Payload proposal
          { relay_url := en.relay_url, ohttp_config := en.ohttp_config,
            ohttp_proxy := en.ohttp_proxy, s := en.s, e := some e } with
      | .error er => .error (.request er)
      | .ok prop => .ok (some prop)

/-- C7: the persisted `Enrolled` snapshot serializes exactly the field set
relay_url, ohttp_config, ohttp_proxy, s — and never a field `e`: the
serializable session type does not carry the sender ephemeral pubkey
(`e` lives only in the non-persisted `V2Context`), so a session that
learned `e` cannot persist it. -/
theorem enrolled_snapshot_fields (C : CryptoPrims) (en : Enrolled C) :
    (serializeEnrolled C en).map Prod.fst
      = ["relay_url", "ohttp_config", "ohttp_proxy", "s"] ∧
    "e" ∉ (serializeEnrolled C en).map Prod.fst := by
  refine ⟨rfl, ?_⟩
  simp [serializeEnrolled]

/-- C8: `Enrolled::process_res` keeps polling (returns `none`) on an empty
decapsulated body; parses a valid-UTF-8 body as a v1-style payload with no
sender key recorded in the context; and decrypts a binary body with
`decrypt_message_a` under the session secret, parses the plaintext, and
records the recovered sender ephemeral pubkey in the resulting context —
in particular for a body produced by `encrypt_message_a` to this session's
key. -/
theorem process_res_spec (C : CryptoPrims) {ReqError P : Type} (en : Enrolled C)
    (fromV2Payload : List Nat → V2Context C → Except ReqError P)
    (response : List Nat) :
    (response = [] → process_res C en fromV2Payload response = .ok none) ∧
    (response ≠ [] → validUtf8 response = true →
      process_res C en fromV2Payload response
        = match fromV2Payload response
            { relay_url := en.relay_url, ohttp_config := en.ohttp_config,
              ohttp_proxy := en.ohttp_proxy, s := en.s, e := none } with
          | .error er => .error (.request er)
          | .ok prop => .ok (some prop)) ∧
    (∀ plaintext e, response ≠ [] → validUtf8 response = false →
      decrypt_message_a C response en.s = .ok (plaintext, e) →
      process_res C en fromV2Payload response
        = match fromV2Payload plaintext
            { relay_url := en.relay_url, ohttp_config := en.ohttp_config,
              ohttp_proxy := en.ohttp_proxy, s := en.s, e := some e } with
          | .error er => .error (.request er)
          | .ok prop => .ok (some prop)) ∧
    (∀ er, response ≠ [] → validUtf8 response = false →
      decrypt_message_a C response en.s = .error er →
      process_res C en fromV2Payload response = .error (.hpke er)) ∧
    (∀ m e_sec nonce, m.length ≤ PADDED_MESSAGE_BYTES → nonce.length = 12 →
      encrypt_message_a C m e_sec (C.pubOf en.s) nonce = .ok response →
      validUtf8 response = false →
      process_res C en fromV2Payload response
        = match fromV2Payload (m ++ List.replicate (PADDED_MESSAGE_BYTES - m.length) 0)
            { relay_url := en.relay_url, ohttp_config := en.ohttp_config,
              ohttp_proxy := en.ohttp_proxy, s := en.s, e := some (C.pubOf e_sec) } with
          | .error er => .error (.request er)
          | .ok prop => .ok (some prop)) := by
  refine ⟨fun h => by simp [process_res, h], fun h hu => ?_, fun pt e h hu hd => ?_,
    fun er h hu hd => ?_, fun m e_sec nonce hm hn henc hu => ?_⟩
  · simp [process_res, h, hu]
  · simp [process_res, h, hu, hd]
  · simp [process_res, h, hu, hd]
  · have hok := encrypt_message_a_ok C m e_sec (C.pubOf en.s) nonce hm
    rw [henc] at hok
    have hresp : response = C.serializePub (C.pubOf e_sec) ++ nonce ++
        C.aeadEnc (C.dh (C.pubOf en.s) e_sec) nonce (C.serializePub (C.pubOf e_sec))
          (m ++ List.replicate (PADDED_MESSAGE_BYTES - m.length) 0) := Except.ok.inj hok
    have hdec : decrypt_message_a C response en.s
        = .ok (m ++ List.replicate (PADDED_MESSAGE_BYTES - m.length) 0, C.pubOf e_sec) := by
      rw [hresp]
      exact decrypt_message_a_frame C e_sec en.s nonce _ _ hn (C.aeadDec_aeadEnc _ _ _ _)
    have hne : response ≠ [] := by
      rw [hresp]
      intro hcontra
      have hlen := congrArg List.length hcontra
      rw [List.length_append, List.length_append, C.serializePub_length] at hlen
      simp at hlen
    simp [process_res, hne, hu, hdec]

/-- The concrete session of the C8 witness. -/
def enEx : Enrolled toyCrypto :=
  { relay_url := "relay", ohttp_config := [1, 2], ohttp_proxy := "proxy", s := toySec 3 }

/-- The concrete payload parser of the C8 witness: returns the payload
bytes together with the context's sender key. -/
def parseEx (bs : List Nat) (ctx : V2Context toyCrypto) :
    Except Unit (List Nat × Option toyCrypto.PubKey) := .ok (bs, ctx.e)

/-- A concrete binary (non-UTF-8) encrypted response for the C8 witness:
it decrypts under `enEx`'s secret to the plaintext `[255]` with sender
ephemeral pubkey 10. -/
def binRespEx : List Nat :=
  2 :: 10 :: (List.replicate 31 0 ++ List.replicate 12 0 ++ [255, 27])

/-- Witness for `process_res_spec`: the empty, UTF-8 and binary branches
at concrete inputs. -/
theorem process_res_witness :
    process_res toyCrypto enEx parseEx [] = .ok none ∧
    process_res toyCrypto enEx parseEx [104, 105] = .ok (some ([104, 105], none)) ∧
    process_res toyCrypto enEx parseEx binRespEx
      = .ok (some ([255], some (toyPub 10))) := by
  refine ⟨(process_res_spec toyCrypto enEx parseEx []).1 rfl, ?_, ?_⟩
  · rw [(process_res_spec toyCrypto enEx parseEx [104, 105]).2.1 (by decide) (by rfl)]
    rfl
  · rw [(process_res_spec toyCrypto enEx parseEx binRespEx).2.2.1 [255] (toyPub 10)
      (by decide) (by rfl) (by rfl)]
    rfl

/-- `Params` (src/payjoin/src/receive/optional_parameters.rs): the fields
read by the multiparty aggregator. -/
structure Params where
  v : Nat
  optimistic_merge : Bool
deriving DecidableEq, Repr

/-- `v1::UncheckedProposal`: the sender's validated PSBT with its query
parameters. -/
structure V1UncheckedProposal where
  psbt : UncheckedPsbt
  params : Params

/-- `SessionContext` (src/payjoin/src/receive/v2.rs): opaque to the
aggregator, which only clones it. -/
structure SessionContext where
  id : Nat
deriving DecidableEq, Repr

/-- `v2::UncheckedProposal` as read by the multiparty aggregator: its `v1`
part and its session context. -/
structure V2UncheckedProposal where
  v1 : V1UncheckedProposal
  context : SessionContext

/-- `SUPPORTED_VERSIONS` from src/payjoin/src/receive/multiparty/mod.rs. -/
def SUPPORTED_VERSIONS : List Nat := [2]

/-- `InternalMultiPartyError` from
src/payjoin/src/receive/multiparty/error.rs (variants reachable here). -/
inductive MultiPartyError where
  | notEnoughProposals
  | proposalVersionNotSupported (v : Nat)
  | optimisticMergeNotSupported
  | inputMissingWitnessOrScriptSig
deriving DecidableEq, Repr

/-- `UncheckedProposalBuilder` from
src/payjoin/src/receive/multiparty/mod.rs. -/
structure UncheckedProposalBuilder where
  proposals : List V2UncheckedProposal

/-- `UncheckedProposalBuilder::check_proposal_suitability` from
src/payjoin/src/receive/multiparty/mod.rs. -/
def check_proposal_suitability (proposal : V2UncheckedProposal) :
    Except MultiPartyError Unit :=
  if ¬ SUPPORTED_VERSIONS.contains proposal.v1.params.v then
    .error (.proposalVersionNotSupported proposal.v1.params.v)
  else if ¬ proposal.v1.params.optimistic_merge then
    .error .optimisticMergeNotSupported
  else .ok ()

/-- `UncheckedProposalBuilder::add` from
src/payjoin/src/receive/multiparty/mod.rs. -/
def builderAdd (b : UncheckedProposalBuilder) (proposal : V2UncheckedProposal) :
    Except MultiPartyError UncheckedProposalBuilder :=
  match check_proposal_suitability proposal with
  | .error e => .error e
  | .ok _ => .ok { proposals := b.proposals ++ [proposal] }

/-- Insertion into a list sorted by `le`. -/
def insertSorted {α : Type} (le : α → α → Bool) (x : α) : List α → List α
  | [] => [x]
  | y :: ys => if le x y then x :: y :: ys else y :: insertSorted le x ys

/-- Insertion sort by `le`. -/
def sortBy {α : Type} (le : α → α → Bool) : List α → List α
  | [] => []
  | x :: xs => insertSorted le x (sortBy le xs)

/-- Ordering of transaction inputs by outpoint (txid, then vout). -/
def txInLE (x y : TxIn) : Bool :=
  decide (x.previous_output.txid < y.previous_output.txid ∨
    (x.previous_output.txid = y.previous_output.txid ∧
     x.previous_output.vout ≤ y.previous_output.vout))

/-- Ordering of transaction outputs by value. -/
def txOutLE (x y : TxOut) : Bool := decide (x.value ≤ y.value)

/-- Modelled from the spec: `crate::psbt::merge::merge_unsigned_tx` is not
under src/.  "merges unsigned transactions by union of inputs and union of
outputs (preserving ordering by outpoint then by value)": inputs are the
deduplicated union sorted by outpoint, outputs the deduplicated union
sorted by value; the PSBT per-input/per-output metadata lists are
concatenated alongside. -/
def merge_unsigned_tx (a b : UncheckedPsbt) : UncheckedPsbt :=
  { unsigned_tx :=
      { input := sortBy txInLE ((a.unsigned_tx.input ++ b.unsigned_tx.input).dedup),
        output := sortBy txOutLE ((a.unsigned_tx.output ++ b.unsigned_tx.output).dedup) },
    inputs := a.inputs ++ b.inputs,
    outputs := a.outputs ++ b.outputs }

/-- The merged multiparty `UncheckedProposal` from
src/payjoin/src/receive/multiparty/mod.rs. -/
structure MultipartyUncheckedProposal where
  v1 : V1UncheckedProposal
  sender_contexts : List SessionContext

/-- `UncheckedProposalBuilder::build` from
src/payjoin/src/receive/multiparty/mod.rs: requires at least two
proposals, merges the unsigned transactions pairwise (`reduce`), and takes
`params` from the first proposal. -/
def builderBuild (b : UncheckedProposalBuilder) :
    Except MultiPartyError MultipartyUncheckedProposal :=
  if b.proposals.length < 2 then .error .notEnoughProposals
  else
    match b.proposals with
    | [] => .error .notEnoughProposals
    | p :: rest =>
      .ok { v1 := { psbt := rest.foldl (fun acc q => merge_unsigned_tx acc q.v1.psbt) p.v1.psbt,
                    params := p.v1.params },
            sender_contexts := (p :: rest).map (fun q => q.context) }

/-- C9: `UncheckedProposalBuilder::add` rejects proposals whose version is
not 2 (`ProposalVersionNotSupported`) or whose optimistic-merge flag is
unset (`OptimisticMergeNotSupported`) and otherwise appends the proposal;
`build` fails with `NotEnoughProposals` on fewer than two proposals, and a
successful `build` takes its `params` from the first added proposal. -/
theorem multiparty_builder_spec (b : UncheckedProposalBuilder)
    (p : V2UncheckedProposal) :
    (p.v1.params.v ≠ 2 →
      builderAdd b p = .error (.proposalVersionNotSupported p.v1.params.v)) ∧
    (p.v1.params.v = 2 → p.v1.params.optimistic_merge = false →
      builderAdd b p = .error .optimisticMergeNotSupported) ∧
    (p.v1.params.v = 2 → p.v1.params.optimistic_merge = true →
      builderAdd b p = .ok { proposals := b.proposals ++ [p] }) ∧
    (b.proposals.length < 2 → builderBuild b = .error .notEnoughProposals) ∧
    (∀ m, builderBuild b = .ok m →
      2 ≤ b.proposals.length ∧
      ∃ q rest, b.proposals = q :: rest ∧ m.v1.params = q.v1.params) := by
  refine ⟨fun hv => ?_, fun hv hf => ?_, fun hv hf => ?_, fun hlt => ?_, fun m hm => ?_⟩
  · simp [builderAdd, check_proposal_suitability, SUPPORTED_VERSIONS, hv]
  · simp [builderAdd, check_proposal_suitability, SUPPORTED_VERSIONS, hv, hf]
  · simp [builderAdd, check_proposal_suitability, SUPPORTED_VERSIONS, hv, hf]
  · simp [builderBuild, hlt]
  · unfold builderBuild at hm
    split at hm
    · exact absurd hm (by simp)
    · rename_i hge
      split at hm
      · exact absurd hm (by simp)
      · rename_i q rest heq
        refine ⟨Nat.le_of_not_lt hge, q, rest, heq, ?_⟩
        have := Except.ok.inj hm
        rw [← this]

/-- The PSBT shared by the C9 witness proposals. -/
def mpPsbt : UncheckedPsbt :=
  { unsigned_tx := { input := [], output := [] }, inputs := [], outputs := [] }

/-- A suitable v2 proposal (version 2, optimistic merge) for the C9
witness. -/
def mpGood (i : Nat) : V2UncheckedProposal :=
  { v1 := { psbt := mpPsbt, params := { v := 2, optimistic_merge := true } },
    context := { id := i } }

/-- A version-1 proposal, unsuitable for the aggregator. -/
def mpBadVersion : V2UncheckedProposal :=
  { v1 := { psbt := mpPsbt, params := { v := 1, optimistic_merge := true } },
    context := { id := 9 } }

/-- Witness for `multiparty_builder_spec` at concrete proposals. -/
theorem multiparty_builder_witness :
    builderAdd { proposals := [] } mpBadVersion
      = .error (.proposalVersionNotSupported 1) ∧
    builderAdd { proposals := [] } (mpGood 1) = .ok { proposals := [mpGood 1] } ∧
    builderBuild { proposals := [mpGood 1] } = .error .notEnoughProposals := by
  refine ⟨?_, ?_, ?_⟩
  · exact (multiparty_builder_spec { proposals := [] } mpBadVersion).1 (by decide)
  · exact (multiparty_builder_spec { proposals := [] } (mpGood 1)).2.2.1 rfl rfl
  · exact (multiparty_builder_spec { proposals := [mpGood 1] } (mpGood 1)).2.2.2.1
      (by decide)

/-- `bitcoin::AddressType`: the variants `Address::address_type` can
produce. -/
inductive AddressType where
  | p2pkh
  | p2sh
  | p2wpkh
  | p2wsh
  | p2tr
deriving DecidableEq, Repr

/-- Modelled from the spec: scriptPubKey classification into a standard
address type (`Address::from_script(..).address_type()`), an external
primitive used by the payjoin crate's psbt.rs, which is not under src/. -/
def addressTypeOfScript (s : List Nat) : Option AddressType :=
  if is_p2pkh s then some .p2pkh
  else if is_p2sh s then some .p2sh
  else if is_witness_program s then
    match s with
    | 0 :: 20 :: _ => some .p2wpkh
    | 0 :: 32 :: _ => some .p2wsh
    | 81 :: 32 :: _ => some .p2tr
    | _ => none
  else none

/-- The payjoin crate's `PsbtInputError` variants reachable from
`InputPair::new` (src/payjoin/src/receive/mod.rs). -/
inductive PjPsbtInputError where
  | prevTxOut (e : PrevTxOutError)
  | unequalTxid
  | segWitTxOutMismatch
  | addressType
  | noRedeemScript
deriving DecidableEq, Repr

/-- Modelled from the spec: the payjoin crate's
`InternalInputPair::validate_utxo` (crate::psbt, not under src/) enforces
§3 of the spec — exactly one of `witness_utxo` present,
`non_witness_utxo` present with matching txid and in-range vout, or both
present and agreeing on the relevant TxOut; missing information is an
error.  This is `validate_utxo` with missing-as-error, its errors mapped
into the payjoin error type. -/
def validate_utxo_strict (txidOf : Transaction → Nat) (pair : InputPair78) :
    Except PjPsbtInputError Unit :=
  match validate_utxo txidOf pair true with
  | .ok _ => .ok ()
  | .error (.prevTxOut e) => .error (.prevTxOut e)
  | .error .unequalTxid => .error .unequalTxid
  | .error .segWitTxOutMismatch => .error .segWitTxOutMismatch

/-- Modelled from the spec: the payjoin crate's
`InternalInputPair::address_type` (crate::psbt, not under src/): the
address type of the resolved previous txout's scriptPubKey. -/
def pairAddressType (pair : InputPair78) : Except PjPsbtInputError AddressType :=
  match previous_txout pair with
  | .error _ => .error .addressType
  | .ok txo =>
    match addressTypeOfScript txo.script_pubkey with
    | some t => .ok t
    | none => .error .addressType

/-- `InputPair::new` from src/payjoin/src/receive/mod.rs: validate the
pair's UTXO information, compute the spent output's address type, and
reject a P2SH spend without a redeem script. -/
def InputPair.new (txidOf : Transaction → Nat) (txin : TxIn) (psbtin : PsbtInput) :
    Except PjPsbtInputError InputPair78 :=
  match validate_utxo_strict txidOf { txin := txin, psbtin := psbtin } with
  | .error e => .error e
  | .ok _ =>
    match pairAddressType { txin := txin, psbtin := psbtin } with
    | .error e => .error e
    | .ok address_type =>
      if address_type = .p2sh ∧ psbtin.redeem_script = none then
        .error .noRedeemScript
      else .ok { txin := txin, psbtin := psbtin }

/-- C10: `InputPair::new` fails when the pair's UTXO information is
missing or inconsistent (propagating the validation error), fails with
`NoRedeemScript` when the spent output's address type is P2SH and no
redeem script is given, and every successfully constructed pair resolves
`previous_txout` without error (so the `.expect` in
`InputPair::previous_txout` cannot panic). -/
theorem input_pair_new_spec (txidOf : Transaction → Nat) (txin : TxIn)
    (psbtin : PsbtInput) :
    (∀ e, validate_utxo_strict txidOf { txin := txin, psbtin := psbtin } = .error e →
      InputPair.new txidOf txin psbtin = .error e) ∧
    (psbtin.non_witness_utxo = none → psbtin.witness_utxo = none →
      InputPair.new txidOf txin psbtin = .error (.prevTxOut .missingUtxoInformation)) ∧
    (validate_utxo_strict txidOf { txin := txin, psbtin := psbtin } = .ok () →
      pairAddressType { txin := txin, psbtin := psbtin } = .ok .p2sh →
      psbtin.redeem_script = none →
      InputPair.new txidOf txin psbtin = .error .noRedeemScript) ∧
    (∀ pair, InputPair.new txidOf txin psbtin = .ok pair →
      pair = { txin := txin, psbtin := psbtin } ∧
      ∃ txo, previous_txout pair = .ok txo) := by
  refine ⟨fun e he => ?_, fun h1 h2 => ?_, fun hval haddr hrs => ?_, fun pair h => ?_⟩
  · simp [InputPair.new, he]
  · have he : validate_utxo_strict txidOf { txin := txin, psbtin := psbtin }
        = .error (.prevTxOut .missingUtxoInformation) := by
      simp [validate_utxo_strict, validate_utxo, h1, h2]
    simp [InputPair.new, he]
  · simp [InputPair.new, hval, haddr, hrs]
  · unfold InputPair.new at h
    split at h
    · exact absurd h (by simp)
    · split at h
      · exact absurd h (by simp)
      · rename_i address_type haddr
        split at h
        · exact absurd h (by simp)
        · have hp : pair = { txin := txin, psbtin := psbtin } := (Except.ok.inj h).symm
          refine ⟨hp, ?_⟩
          rw [hp]
          unfold pairAddressType at haddr
          split at haddr
          · exact absurd haddr (by simp)
          · rename_i txo htxo
            exact ⟨txo, htxo⟩

/-- A P2WPKH scriptPubKey for the C10 witness. -/
def wpkhSpk : List Nat := 0 :: 20 :: List.replicate 20 1

/-- A P2SH scriptPubKey for the C10 witness. -/
def p2shSpkEx : List Nat := 169 :: 20 :: (List.replicate 20 3 ++ [135])

/-- The transaction input of the C10 witness. -/
def txinEx : TxIn := { previous_output := { txid := 1, vout := 0 } }

/-- A PSBT input with no UTXO information. -/
def psbtinMissing : PsbtInput :=
  { non_witness_utxo := none, witness_utxo := none,
    final_script_sig := none, redeem_script := none }

/-- A PSBT input spending a P2SH output without a redeem script. -/
def psbtinP2shNoRedeem : PsbtInput :=
  { non_witness_utxo := none,
    witness_utxo := some { value := 5, script_pubkey := p2shSpkEx },
    final_script_sig := none, redeem_script := none }

/-- A well-formed PSBT input spending a P2WPKH output. -/
def psbtinGood : PsbtInput :=
  { non_witness_utxo := none,
    witness_utxo := some { value := 5, script_pubkey := wpkhSpk },
    final_script_sig := none, redeem_script := none }

/-- Witness for `input_pair_new_spec` at concrete inputs. -/
theorem input_pair_new_witness :
    InputPair.new (fun _ => 0) txinEx psbtinMissing
      = .error (.prevTxOut .missingUtxoInformation) ∧
    InputPair.new (fun _ => 0) txinEx psbtinP2shNoRedeem = .error .noRedeemScript ∧
    (∃ txo, previous_txout { txin := txinEx, psbtin := psbtinGood } = .ok txo) := by
  refine ⟨?_, ?_, ?_⟩
  · exact (input_pair_new_spec (fun _ => 0) txinEx psbtinMissing).2.1 rfl rfl
  · exact (input_pair_new_spec (fun _ => 0) txinEx psbtinP2shNoRedeem).2.2.1 rfl
      (by decide) rfl
  · exact ((input_pair_new_spec (fun _ => 0) txinEx psbtinGood).2.2.2
      { txin := txinEx, psbtin := psbtinGood } (by decide)).2
